import Mathlib

/-!
Shallow embedding of the smart-attendance backend's Attendance Session &
Marking Engine (src/server.js, src/unnamed/part_000 "services",
src/unnamed/part_001 "middleware").

Modelling conventions:
* Timestamps are `Nat` milliseconds since the Unix epoch, in a single fixed
  timezone.  JS `new Date().setHours(0,0,0,0)` becomes `dayStart`,
  `getHours()` becomes `hourOf`, `getDay()` becomes `dayOfWeek`
  (epoch day 0, 1970-01-01, was a Thursday = 4).
* MongoDB document ids become `Nat` ids assigned by a counter in `Store`;
  `Model.create` appends to a list (Mongo natural order = insertion order)
  and `findOne` is `List.find?` (first match in natural order).
* `crypto.randomBytes` / `Math.random` token and code generation is
  nondeterministic I/O; the generated strings are taken as parameters.
* The haversine geofence (`AttendanceService.isWithinCampus`) computes with
  IEEE floating point and trigonometry, which the kernel cannot evaluate;
  it is abstracted as a boolean predicate parameter `geo` on locations,
  threaded exactly where the source calls `isWithinCampus`.
* Fire-and-forget notification and audit side effects are omitted: they
  never influence the persisted attendance/session state.
-/

/-- Milliseconds per day. -/
def msPerDay : Nat := 86400000

/-- Milliseconds per hour. -/
def msPerHour : Nat := 3600000

/-- JS `new Date(t).setHours(0,0,0,0)`: midnight of the day containing `t`. -/
def dayStart (t : Nat) : Nat := t - t % msPerDay

/-- JS `new Date(t).getHours()`. -/
def hourOf (t : Nat) : Nat := t % msPerDay / msPerHour

/-- JS `new Date(t).getDay()`: 0 = Sunday, 6 = Saturday. -/
def dayOfWeek (t : Nat) : Nat := (t / msPerDay + 4) % 7

/-- `type` enum of the attendance schema (server.js, attendanceSchema). -/
inductive AttType
  | CAMPUS
  | CLASS
deriving DecidableEq, Repr

/-- `status` enum of the attendance schema. -/
inductive AttStatus
  | PRESENT
  | ABSENT
  | LATE
deriving DecidableEq, Repr

/-- `mode` enum of the attendance schema. -/
inductive AttMode
  | GPS
  | BLE
  | WIFI
  | INTERNET
  | MANUAL
deriving DecidableEq, Repr

/-- `mode` enum of the session schema. -/
inductive SessionMode
  | BLE
  | WIFI
  | INTERNET
deriving DecidableEq, Repr

/-- A session's `mode` recorded on an attendance event (markAttendance sets
`mode: session.mode`). -/
def sessionModeToAttMode : SessionMode → AttMode
  | SessionMode.BLE => AttMode.BLE
  | SessionMode.WIFI => AttMode.WIFI
  | SessionMode.INTERNET => AttMode.INTERNET

/-- GPS coordinates as supplied by the client.  Only their identity matters
here: the floating-point haversine check is abstracted by a predicate. -/
structure Location where
  latitude : Int
  longitude : Int
deriving DecidableEq, Repr

/-- An `Attendance` document (server.js, attendanceSchema).  `id` plays the
role of the Mongo `_id`; two separately inserted documents always have
distinct ids. -/
structure Attendance where
  id : Nat
  studentId : Nat
  classId : Nat
  date : Nat
  type : AttType
  period : Option Nat := none
  status : AttStatus := AttStatus.ABSENT
  mode : Option AttMode := none
  location : Option Location := none
  deviceId : Option String := none
  markedBy : Option Nat := none
  reason : Option String := none
  createdAt : Nat
deriving DecidableEq, Repr

/-- A `Session` document (server.js, sessionSchema). -/
structure Session where
  id : Nat
  classId : Nat
  teacherId : Nat
  date : Nat
  period : Nat
  mode : SessionMode
  token : String
  code : Option String := none
  ssid : Option String := none
  isActive : Bool := true
  expiresAt : Nat
  presentStudents : List Nat := []
  createdAt : Nat
deriving DecidableEq, Repr

/-- `type` enum of the holiday schema. -/
inductive HolidayType
  | SPECIAL
  | SATURDAY_WORKING
deriving DecidableEq, Repr

/-- A `Holiday` document (server.js, holidaySchema). -/
structure HolidayRule where
  name : String
  startDate : Nat
  endDate : Nat
  type : HolidayType
  mappedDay : Option String := none
deriving DecidableEq, Repr

/-- The object returned by `AttendanceService.isHoliday`.  Fields the JS
object omits are `none` / `false`. -/
structure HolidayResult where
  isHoliday : Bool
  isWorkingDay : Bool := false
  mappedDay : Option String := none
  reason : Option String := none
deriving DecidableEq, Repr

/-- A `Student` document (the fields the engine reads). -/
structure Student where
  id : Nat
  name : String
  rollNumber : String
  classId : Nat
  isActive : Bool := true
deriving DecidableEq, Repr

/-- `type` enum of the request schema. -/
inductive RequestType
  | MANUAL_ATTENDANCE
  | FRIEND_ATTENDANCE
deriving DecidableEq, Repr

/-- A `Request` document as read by the review endpoint after
`.populate("studentId")`: `studentClassId` is the populated student's
`classId`. -/
structure Request where
  id : Nat
  studentId : Nat
  studentClassId : Nat
  type : RequestType
  date : Nat
  period : Option Nat := none
  reason : String
deriving DecidableEq, Repr

/-- Review decision accepted by `PUT /api/requests/:id/review`. -/
inductive ReviewStatus
  | APPROVED
  | REJECTED
deriving DecidableEq, Repr

/-- The persistent store: the `Attendance` and `Session` collections, with
counters standing in for Mongo's `_id` generation. -/
structure Store where
  attendances : List Attendance := []
  sessions : List Session := []
  nextAttendanceId : Nat := 0
  nextSessionId : Nat := 0
deriving DecidableEq, Repr

/-- `Attendance.create`: append one document, assigning a fresh id. -/
def Store.insertAttendance (s : Store) (mk : Nat → Attendance) :
    Attendance × Store :=
  let a := mk s.nextAttendanceId
  (a, { s with
        attendances := s.attendances ++ [a]
        nextAttendanceId := s.nextAttendanceId + 1 })

/-- Extract the store from an operation result, keeping `dflt` on error.
The service functions throw before any mutation, so the store is unchanged
on the error path. -/
def storeOf {α : Type} (r : Except String (α × Store)) (dflt : Store) :
    Store :=
  match r with
  | Except.ok (_, s) => s
  | Except.error _ => dflt

/-- Whether an operation result is a success. -/
def isOkE {ε α : Type} (r : Except ε α) : Bool :=
  match r with
  | Except.ok _ => true
  | Except.error _ => false

/-- `Holiday.findOne({startDate: {$lte: checkDate}, endDate: {$gte:
checkDate}})`: the first declared rule whose inclusive range contains the
day. -/
def findHolidayRule (rules : List HolidayRule) (checkDate : Nat) :
    Option HolidayRule :=
  rules.find? (fun h => h.startDate ≤ checkDate ∧ checkDate ≤ h.endDate)

/-- `AttendanceService.isHoliday` (services part_000, lines 185-228). -/
def isHoliday (rules : List HolidayRule) (date : Nat) : HolidayResult :=
  let dow := dayOfWeek date
  if dow = 0 then
    { isHoliday := true, reason := some "Sunday" }
  else
    let checkDate := dayStart date
    match findHolidayRule rules checkDate with
    | some h =>
      if h.type = HolidayType.SPECIAL then
        { isHoliday := true, reason := some h.name }
      else if h.type = HolidayType.SATURDAY_WORKING ∧ dow = 6 then
        { isHoliday := false, isWorkingDay := true,
          mappedDay := h.mappedDay, reason := some "Working Saturday" }
      else if dow = 6 then
        { isHoliday := true, reason := some "Saturday" }
      else
        { isHoliday := false }
    | none =>
      if dow = 6 then
        { isHoliday := true, reason := some "Saturday" }
      else
        { isHoliday := false }

/-- WIFI network name derivation in `createSession`:
`` `SmartAttend_${token.substring(0, 8)}` ``. -/
def generateSsid (token : String) : String :=
  "SmartAttend_" ++ token.take 8

/-- `AttendanceService.createSession` (part_000, lines 75-101).  `token`
is the generated hex token, `codeGen` the generated short code (used only
in INTERNET mode), `now` the clock.  The session `date` is `new Date()` —
the full creation timestamp. -/
def createSession (classId teacherId period : Nat) (mode : SessionMode)
    (token codeGen : String) (now : Nat) (s : Store) : Session × Store :=
  let code := if mode = SessionMode.INTERNET then some codeGen else none
  let ssid := if mode = SessionMode.WIFI then some (generateSsid token)
    else none
  let sess : Session :=
    { id := s.nextSessionId, classId := classId, teacherId := teacherId,
      date := now, period := period, mode := mode, token := token,
      code := code, ssid := ssid, isActive := true,
      expiresAt := now + 15 * 60 * 1000, presentStudents := [],
      createdAt := now }
  (sess, { s with
           sessions := s.sessions ++ [sess]
           nextSessionId := s.nextSessionId + 1 })

/-- `POST /api/attendance/session/start` (server.js, lines 368-421): the
holiday gate, the active-session check (querying `date` equal to today's
midnight), then `createSession`. -/
def startSession (rules : List HolidayRule) (classId teacherId period : Nat)
    (mode : SessionMode) (token codeGen : String) (now : Nat) (s : Store) :
    Except String (Session × Store) :=
  let hs := isHoliday rules now
  if hs.isHoliday then
    Except.error ("Cannot take attendance on " ++ hs.reason.getD "")
  else
    match s.sessions.find? (fun x =>
        x.classId = classId ∧ x.date = dayStart now ∧ x.period = period ∧
        x.isActive = true) with
    | some _ => Except.error "Session already active for this period"
    | none => Except.ok (createSession classId teacherId period mode token
        codeGen now s)

/-- `AttendanceService.markAttendance` (part_000, lines 104-141).  The
duplicate check queries `(studentId, classId, date = today's midnight,
period)`; the created event's `date` is `new Date()` — the full
timestamp. -/
def markAttendance (sessionId studentId : Nat) (deviceId : Option String)
    (location : Option Location) (now : Nat) (s : Store) :
    Except String (Attendance × Store) :=
  match s.sessions.find? (fun x => x.id = sessionId) with
  | none => Except.error "Invalid or expired session"
  | some session =>
    if session.isActive = false ∨ session.expiresAt < now then
      Except.error "Invalid or expired session"
    else if (s.attendances.find? (fun a =>
        a.studentId = studentId ∧ a.classId = session.classId ∧
        a.date = dayStart now ∧ a.period = some session.period)).isSome then
      Except.error "Attendance already marked"
    else
      let (att, s1) := s.insertAttendance (fun i =>
        { id := i, studentId := studentId, classId := session.classId,
          date := now, type := AttType.CLASS,
          period := some session.period, status := AttStatus.PRESENT,
          mode := some (sessionModeToAttMode session.mode),
          location := location, deviceId := deviceId,
          markedBy := some session.teacherId, reason := none,
          createdAt := now })
      let s2 := { s1 with sessions := s1.sessions.map (fun x =>
        if x.id = sessionId then
          { x with presentStudents := x.presentStudents ++ [studentId] }
        else x) }
      Except.ok (att, s2)

/-- `POST /api/attendance/mark` (server.js, lines 424-460): the route
first rejects a missing session or a token unequal to `session.token`
with the single error "Invalid session or token", then calls
`markAttendance`. -/
def markRoute (userId sessionId : Nat) (token : String)
    (location : Option Location) (deviceId : Option String) (now : Nat)
    (s : Store) : Except String (Attendance × Store) :=
  match s.sessions.find? (fun x => x.id = sessionId) with
  | none => Except.error "Invalid session or token"
  | some session =>
    if session.token ≠ token then
      Except.error "Invalid session or token"
    else
      markAttendance sessionId userId deviceId location now s

/-- `AttendanceService.markCampusAttendance` (part_000, lines 144-182).
`geo` abstracts `isWithinCampus` applied to the supplied location; the
existing-record check queries `date` equal to today's midnight, while the
created event stores the full timestamp `now`. -/
def markCampusAttendance (geo : Location → Bool) (student : Student)
    (location : Location) (deviceId : Option String) (now : Nat)
    (s : Store) : Except String (Attendance × Store) :=
  let today := dayStart now
  match s.attendances.find? (fun a =>
      a.studentId = student.id ∧ a.date = today ∧
      a.type = AttType.CAMPUS) with
  | some existing => Except.ok (existing, s)
  | none =>
    if 11 ≤ hourOf now then
      Except.error "Campus attendance closed after 11:00 AM"
    else if geo location = false then
      Except.error "Not within campus bounds"
    else
      let (att, s1) := s.insertAttendance (fun i =>
        { id := i, studentId := student.id, classId := student.classId,
          date := now, type := AttType.CAMPUS, period := none,
          status := AttStatus.PRESENT, mode := some AttMode.GPS,
          location := some location, deviceId := deviceId,
          markedBy := none, reason := none, createdAt := now })
      Except.ok (att, s1)

/-- The attendance-creating effect of `PUT /api/requests/:id/review`
(server.js, lines 610-662): on APPROVED + MANUAL_ATTENDANCE an event is
inserted with the request's own `date`, with no duplicate check. -/
def reviewRequest (req : Request) (status : ReviewStatus)
    (teacherId now : Nat) (s : Store) : Store :=
  if status = ReviewStatus.APPROVED ∧
      req.type = RequestType.MANUAL_ATTENDANCE then
    (s.insertAttendance (fun i =>
      { id := i, studentId := req.studentId, classId := req.studentClassId,
        date := req.date,
        type := if req.period.isSome then AttType.CLASS
          else AttType.CAMPUS,
        period := req.period, status := AttStatus.PRESENT,
        mode := some AttMode.MANUAL, location := none, deviceId := none,
        markedBy := some teacherId, reason := some req.reason,
        createdAt := now })).2
  else s

/-- One student's step of the auto-absent sweep (server.js, lines 903-946):
lacking a CAMPUS event with `date` equal to today's midnight, an ABSENT
CAMPUS event is created with `date = new Date()`. -/
def sweepStudent (now : Nat) (s : Store) (st : Student) : Store :=
  match s.attendances.find? (fun a =>
      a.studentId = st.id ∧ a.date = dayStart now ∧
      a.type = AttType.CAMPUS) with
  | some _ => s
  | none =>
    (s.insertAttendance (fun i =>
      { id := i, studentId := st.id, classId := st.classId, date := now,
        type := AttType.CAMPUS, period := none,
        status := AttStatus.ABSENT, mode := none, location := none,
        deviceId := none, markedBy := none, reason := none,
        createdAt := now })).2

/-- The `cron.schedule("0 11 * * 1-6")` auto-absent sweep (server.js,
lines 903-946): no-op on a holiday, else every active student lacking a
CAMPUS event for today is marked ABSENT. -/
def autoAbsentSweep (rules : List HolidayRule) (students : List Student)
    (now : Nat) (s : Store) : Store :=
  if (isHoliday rules now).isHoliday then s
  else (students.filter (fun st => st.isActive = true)).foldl
    (sweepStudent now) s

/-- The hourly session-expiry sweep (server.js, lines 949-962):
`updateMany({isActive: true, expiresAt: {$lt: now}}, {isActive: false})`. -/
def expireSweep (now : Nat) (s : Store) : Store :=
  { s with sessions := s.sessions.map (fun x =>
      if x.isActive = true ∧ x.expiresAt < now then
        { x with isActive := false }
      else x) }

/-- One row of the report (`stats[student._id]` in
`ReportService.generateAttendanceReport`). -/
structure StudentStat where
  name : String
  rollNumber : String
  totalClasses : Nat := 0
  present : Nat := 0
  absent : Nat := 0
  percentage : Nat := 0
deriving DecidableEq, Repr

/-- JS `Math.round((p / t) * 100)` over the exact rational `p / t`
(`0 ≤ p ≤ t`, `t > 0`): round half away from zero = `⌊100·p/t + 1/2⌋`. -/
def jsRound (p t : Nat) : Nat := (200 * p + t) / (2 * t)

/-- The per-record update inside the `attendances.forEach` loop. -/
def bumpStat (st : StudentStat) (r : Attendance) : StudentStat :=
  { st with
    totalClasses := st.totalClasses + 1
    present := if r.status = AttStatus.PRESENT then st.present + 1
      else st.present
    absent := if r.status = AttStatus.PRESENT then st.absent
      else st.absent + 1 }

/-- `stats[record.studentId]` update: only existing keys are touched
(`if (stats[studentId])`). -/
def applyRecord (stats : List (Nat × StudentStat)) (r : Attendance) :
    List (Nat × StudentStat) :=
  stats.map (fun p => if p.1 = r.studentId then (p.1, bumpStat p.2 r)
    else p)

/-- The final percentage pass: `Math.round((present / totalClasses) * 100)`
when `totalClasses > 0`. -/
def finalizeStat (st : StudentStat) : StudentStat :=
  if 0 < st.totalClasses then
    { st with percentage := jsRound st.present st.totalClasses }
  else st

/-- `ReportService.generateAttendanceReport` (part_000, lines 280-339),
JSON shape: fetch `Attendance.find({classId, date: {$gte: startDate, $lte:
endDate}})` (note: no `type` filter), initialise a stat per student of the
class, fold over the fetched records, then compute percentages. -/
def generateAttendanceReport (classId startDate endDate : Nat)
    (students : List Student) (s : Store) : List StudentStat :=
  let fetched := s.attendances.filter (fun a =>
    a.classId = classId ∧ startDate ≤ a.date ∧ a.date ≤ endDate)
  let init : List (Nat × StudentStat) := students.map (fun st =>
    (st.id, { name := st.name, rollNumber := st.rollNumber }))
  let stats := fetched.foldl applyRecord init
  (stats.map Prod.snd).map finalizeStat

deriving instance DecidableEq for Except

/-! ### Derived observations used by the theorems -/

/-- The key tuple the spec's uniqueness invariant is about. -/
def keyTuple (a : Attendance) : Nat × Nat × AttType × Option Nat :=
  (a.studentId, a.date, a.type, a.period)

/-- Timing data of every stored session: (id, createdAt, expiresAt). -/
def sessionTimes (s : Store) : List (Nat × Nat × Nat) :=
  s.sessions.map (fun x => (x.id, x.createdAt, x.expiresAt))

/-! ### Concrete scenario inputs -/

/-- Monday 1970-01-05, 09:00 — a plain working weekday morning. -/
def tMon : Nat := 4 * msPerDay + 9 * msPerHour

/-- Monday 1970-01-05, 10:00. -/
def t10 : Nat := 4 * msPerDay + 10 * msPerHour

/-- Monday 1970-01-05, 11:00 — the sweep trigger time. -/
def t11 : Nat := 4 * msPerDay + 11 * msPerHour

/-- Saturday 1970-01-03, 09:00. -/
def tSat : Nat := 2 * msPerDay + 9 * msPerHour

/-- Geofence oracle for a point inside campus (accepts everything). -/
def geoAll : Location → Bool := fun _ => true

/-- Some fixed coordinates. -/
def locA : Location := { latitude := 13, longitude := 80 }

/-- A manual-attendance request for class period 3. -/
def reqC1 : Request :=
  { id := 0, studentId := 7, studentClassId := 3,
    type := RequestType.MANUAL_ATTENDANCE, date := 5 * msPerDay,
    period := some 3, reason := "was ill and at the hospital" }

/-- The store after the same manual-attendance request is approved twice. -/
def storeC1 : Store :=
  reviewRequest reqC1 ReviewStatus.APPROVED 9 tMon
    (reviewRequest reqC1 ReviewStatus.APPROVED 9 tMon {})

/-- First session-start request: class 1, period 3, Monday 09:00. -/
def c2first : Except String (Session × Store) :=
  startSession [] 1 2 3 SessionMode.BLE "tokA" "" tMon {}

/-- Store after the first session start. -/
def c2s1 : Store := storeOf c2first {}

/-- Second session-start request for the same class and period, five
minutes later the same day. -/
def c2second : Except String (Session × Store) :=
  startSession [] 1 2 3 SessionMode.BLE "tokB" "" (tMon + 300000) c2s1

/-- Store after both session starts. -/
def c2s2 : Store := storeOf c2second c2s1

/-- An inactive session holding token "T". -/
def sessC3 : Session :=
  { id := 0, classId := 1, teacherId := 2, date := tMon, period := 3,
    mode := SessionMode.BLE, token := "T", isActive := false,
    expiresAt := tMon + 900000, createdAt := tMon }

/-- A store holding only the inactive session. -/
def storeC3 : Store := { sessions := [sessC3], nextSessionId := 1 }

/-- Student B of class 1. -/
def stuB : Student :=
  { id := 2, name := "B", rollNumber := "CSE202100002", classId := 1 }

/-- First campus mark: Monday 10:00, inside campus, empty store. -/
def c4first : Except String (Attendance × Store) :=
  markCampusAttendance geoAll stuB locA none t10 {}

/-- Store after the first campus mark. -/
def c4s1 : Store := storeOf c4first {}

/-- Second campus mark of the same student, same day, five minutes
later. -/
def c4second : Except String (Attendance × Store) :=
  markCampusAttendance geoAll stuB locA none (t10 + 300000) c4s1

/-- Store after both campus marks. -/
def c4s2 : Store := storeOf c4second c4s1

/-- Three active students, none of whom marked campus attendance. -/
def studentsC5 : List Student :=
  [{ id := 11, name := "P", rollNumber := "CSE202100011", classId := 1 },
   { id := 12, name := "Q", rollNumber := "CSE202100012", classId := 1 },
   { id := 13, name := "R", rollNumber := "CSE202100013", classId := 1 }]

/-- Store after the first sweep run, Monday 11:00, no holiday rules. -/
def c5s1 : Store := autoAbsentSweep [] studentsC5 t11 {}

/-- Store after re-running the sweep one minute later the same day. -/
def c5s2 : Store := autoAbsentSweep [] studentsC5 (t11 + 60000) c5s1

/-- A session created at Monday 09:00. -/
def c6session : Session :=
  (createSession 1 2 3 SessionMode.BLE "tokC" "" tMon {}).1

/-- A SATURDAY_WORKING rule declared first, covering the first ten days
of 1970. -/
def ruleSatWork : HolidayRule :=
  { name := "Odd Saturdays Working", startDate := 0,
    endDate := 10 * msPerDay, type := HolidayType.SATURDAY_WORKING,
    mappedDay := some "monday" }

/-- A SPECIAL holiday declared second, covering Saturday 1970-01-03. -/
def ruleSpecial : HolidayRule :=
  { name := "Festival", startDate := 2 * msPerDay,
    endDate := 2 * msPerDay, type := HolidayType.SPECIAL }

/-- Both rules, in declaration order. -/
def rulesC7 : List HolidayRule := [ruleSatWork, ruleSpecial]

/-- Student S of class 4. -/
def stuS : Student :=
  { id := 21, name := "S", rollNumber := "CSE202100021", classId := 4 }

/-- A CAMPUS (not CLASS) event of student S in class 4. -/
def campEventC8 : Attendance :=
  { id := 0, studentId := 21, classId := 4, date := 100,
    type := AttType.CAMPUS, status := AttStatus.PRESENT,
    mode := some AttMode.GPS, createdAt := 100 }

/-- A store holding only that CAMPUS event. -/
def storeC8 : Store := { attendances := [campEventC8], nextAttendanceId := 1 }

/-- Folding the per-record update over a list of records: the
`attendances.forEach` loop as seen by one student's stat entry. -/
def applyAll (st : StudentStat) (l : List Attendance) : StudentStat :=
  l.foldl bumpStat st

/-- An active session of class 10, period 3, started Monday 09:00. -/
def sessW : Session :=
  { id := 0, classId := 10, teacherId := 2, date := tMon, period := 3,
    mode := SessionMode.BLE, token := "tokW", isActive := true,
    expiresAt := tMon + 900000, createdAt := tMon }

/-- A store holding only `sessW`. -/
def storeW : Store := { sessions := [sessW], nextSessionId := 1 }

/-- A student whose own class (99) differs from the session's class
(10). -/
def stuW : Student :=
  { id := 5, name := "W", rollNumber := "CSE202100005", classId := 99 }

/-- A CLASS event of student 5 in class 10, period 3, dated Monday
midnight. -/
def dupClassEvent : Attendance :=
  { id := 0, studentId := 5, classId := 10, date := dayStart tMon,
    type := AttType.CLASS, period := some 3,
    status := AttStatus.PRESENT, createdAt := dayStart tMon }

/-- A CAMPUS event of student 2 dated Monday midnight. -/
def dupCampusEvent : Attendance :=
  { id := 1, studentId := 2, classId := 1, date := dayStart tMon,
    type := AttType.CAMPUS, status := AttStatus.PRESENT,
    createdAt := dayStart tMon }

/-- A store holding both blocking events and the active session. -/
def storeG : Store :=
  { attendances := [dupClassEvent, dupCampusEvent], sessions := [sessW],
    nextAttendanceId := 2, nextSessionId := 1 }

/-- An active session whose stored date is Monday midnight. -/
def sessActive : Session :=
  { id := 0, classId := 1, teacherId := 2, date := dayStart tMon,
    period := 3, mode := SessionMode.BLE, token := "tokD",
    isActive := true, expiresAt := dayStart tMon + 900000,
    createdAt := dayStart tMon }

/-- A store holding only `sessActive`. -/
def storeA : Store := { sessions := [sessActive], nextSessionId := 1 }

/-! ### Theorems -/

/-- `insertAttendance` never touches the session collection. -/
theorem sessions_insertAttendance (s : Store) (mk : Nat → Attendance) :
    (s.insertAttendance mk).2.sessions = s.sessions := rfl

/-- One sweep step never touches the session collection. -/
theorem sweepStudent_sessions (now : Nat) (s : Store) (st : Student) :
    (sweepStudent now s st).sessions = s.sessions := by
  unfold sweepStudent
  split <;> rfl

/-- The whole sweep loop never touches the session collection. -/
theorem foldl_sweep_sessions (now : Nat) (l : List Student) (s : Store) :
    (l.foldl (sweepStudent now) s).sessions = s.sessions := by
  induction l generalizing s with
  | nil => rfl
  | cons a t ih => rw [List.foldl_cons, ih, sweepStudent_sessions]

/-- Claim C1, counterexample: approving the same MANUAL_ATTENDANCE request
twice persists two distinct events (ids 0 and 1) whose key tuples
(studentId, date, type, period) are equal — the second insert attempt is
neither rejected nor suppressed. -/
theorem attendance_key_uniqueness_counterexample :
    storeC1.attendances.map (fun a => a.id) = [0, 1] ∧
    storeC1.attendances.map keyTuple =
      [(7, 5 * msPerDay, AttType.CLASS, some 3),
       (7, 5 * msPerDay, AttType.CLASS, some 3)] := by
  decide

/-- Claim C2, counterexample: two sequential session-start requests for the
same (classId, day, period) both succeed — the active-session check
compares the stored `date` to today's midnight while sessions store full
creation timestamps — leaving two sessions with `isActive = true` for the
same (classId, day, period). -/
theorem active_session_uniqueness_counterexample :
    isOkE c2first = true ∧ isOkE c2second = true ∧
    c2s2.sessions.map (fun x =>
      (x.classId, dayStart x.date, x.period, x.isActive)) =
      [(1, dayStart tMon, 3, true), (1, dayStart tMon, 3, true)] := by
  decide

/-- Claim C3, counterexample: for a session that is found but inactive, the
claim predicts the Expired error regardless of the credential; the code
instead checks the token first and answers the combined
"Invalid session or token" — the same error it gives for a missing
session — so the emitted error depends on the supplied token and neither
NotFound nor Forbidden("token mismatch") is a distinct outcome. -/
theorem mark_errors_counterexample :
    (storeC3.sessions.find? (fun x => x.id = 0)).isSome = true ∧
    sessC3.isActive = false ∧
    markRoute 5 0 "X" none none (tMon + 60000) storeC3 =
      Except.error "Invalid session or token" ∧
    markRoute 5 0 "T" none none (tMon + 60000) storeC3 =
      Except.error "Invalid or expired session" ∧
    markRoute 5 99 "T" none none (tMon + 60000) storeC3 =
      Except.error "Invalid session or token" := by
  decide

/-- Claim C4, code bug: a second campus mark of the same student on the
same day (10:00 then 10:05, inside campus) inserts a second PRESENT CAMPUS
event instead of returning the existing record: the existing-record check
queries `date` equal to today's midnight, but the first event was stored
with the full timestamp 10:00. -/
theorem campus_mark_duplicate_insert :
    isOkE c4first = true ∧ isOkE c4second = true ∧
    c4s2.attendances.map (fun a =>
      (a.id, a.studentId, dayStart a.date, a.type, a.status)) =
      [(0, 2, dayStart t10, AttType.CAMPUS, AttStatus.PRESENT),
       (1, 2, dayStart t10, AttType.CAMPUS, AttStatus.PRESENT)] := by
  decide

/-- Claim C5, code bug: running the sweep twice for the same non-holiday
day with 3 unmarked students leaves 6 ABSENT CAMPUS events, not 3: the
events the first run created carry full timestamps, so the second run's
lookup (which queries `date` equal to midnight) finds none of them. -/
theorem absence_sweep_duplicates :
    c5s1.attendances.length = 3 ∧
    c5s2.attendances.length = 6 ∧
    c5s2.attendances.all (fun a =>
      a.type = AttType.CAMPUS ∧ a.status = AttStatus.ABSENT ∧
      dayStart a.date = dayStart t11) = true := by
  decide

/-- Claim C6, code bug: sessions and events are persisted with the full
creation timestamp (`new Date()`), not the midnight of the creation day,
so the day-keyed lookup the code itself performs (campus duplicate check
shown here) fails to match a record created earlier the same day. -/
theorem stored_dates_full_timestamp :
    c6session.date = tMon ∧ dayStart tMon ≠ tMon ∧
    c4s1.attendances.map (fun a => a.date) = [t10] ∧
    dayStart t10 ≠ t10 ∧
    c4s1.attendances.find? (fun a =>
      a.studentId = stuB.id ∧ a.date = dayStart t10 ∧
      a.type = AttType.CAMPUS) = none := by
  decide

/-- Claim C7, counterexample: on a Saturday covered by both a
SATURDAY_WORKING rule (declared first) and a SPECIAL rule, the resolver
returns the working-Saturday result: `findOne` yields the first declared
matching rule, so SPECIAL does not take precedence over
SATURDAY_WORKING. -/
theorem holiday_precedence_counterexample :
    dayOfWeek tSat = 6 ∧
    ruleSpecial.startDate ≤ dayStart tSat ∧
    dayStart tSat ≤ ruleSpecial.endDate ∧
    ruleSpecial.type = HolidayType.SPECIAL ∧
    isHoliday rulesC7 tSat =
      { isHoliday := false, isWorkingDay := true,
        mappedDay := some "monday", reason := some "Working Saturday" } := by
  decide

/-- Claim C8, counterexample: a CAMPUS event in range is counted by the
report — the fetch filters only on classId and date range, not on
type — so a student with one PRESENT CAMPUS event and no CLASS events
gets totalClasses = 1 and percentage = 100, where the claim (CLASS-only
aggregation) predicts totalClasses = 0. -/
theorem report_counts_campus_counterexample :
    campEventC8.type = AttType.CAMPUS ∧
    generateAttendanceReport 4 0 1000 [stuS] storeC8 =
      [{ name := "S", rollNumber := "CSE202100021", totalClasses := 1,
         present := 1, absent := 0, percentage := 100 }] := by
  decide

/-- Claim C9: every session is created with
`expiresAt = createdAt + 15 minutes` (first two conjuncts: the created
session's fields, and the appended timing row), and no subsequent code
path — class marking (which saves the session after appending to
`presentStudents`), campus marking, manual approval, the absence sweep,
or the expiry sweep (which only flips `isActive`) — changes any session's
`createdAt` or `expiresAt`. -/
theorem session_expiry_window (classId teacherId period : Nat)
    (mode : SessionMode) (token codeGen : String)
    (rules : List HolidayRule) (students : List Student)
    (sessionId studentId : Nat) (dev : Option String)
    (loc : Option Location) (geo : Location → Bool) (student : Student)
    (loc2 : Location) (req : Request) (rstat : ReviewStatus)
    (now : Nat) (s : Store) :
    (createSession classId teacherId period mode token codeGen now
        s).1.expiresAt =
      (createSession classId teacherId period mode token codeGen now
        s).1.createdAt + 15 * 60 * 1000 ∧
    sessionTimes (createSession classId teacherId period mode token codeGen
        now s).2 =
      sessionTimes s ++ [(s.nextSessionId, now, now + 15 * 60 * 1000)] ∧
    sessionTimes (storeOf (markAttendance sessionId studentId dev loc now s)
        s) = sessionTimes s ∧
    sessionTimes (storeOf (markCampusAttendance geo student loc2 dev now s)
        s) = sessionTimes s ∧
    sessionTimes (reviewRequest req rstat teacherId now s) =
      sessionTimes s ∧
    sessionTimes (autoAbsentSweep rules students now s) = sessionTimes s ∧
    sessionTimes (expireSweep now s) = sessionTimes s := by
  refine ⟨rfl, ?_, ?_, ?_, ?_, ?_, ?_⟩
  · simp [createSession, sessionTimes]
  · unfold markAttendance
    split
    · rfl
    · split
      · rfl
      · split
        · rfl
        · simp only [storeOf, Store.insertAttendance, sessionTimes,
            List.map_map]
          exact List.map_congr_left (fun x _ => by
            simp only [Function.comp_apply]
            split <;> rfl)
  · unfold markCampusAttendance
    cases hf : List.find? (fun a => decide (a.studentId = student.id ∧
        a.date = dayStart now ∧ a.type = AttType.CAMPUS)) s.attendances with
    | some e => simp only [hf]; rfl
    | none =>
      simp only [hf]
      split
      · rfl
      · split <;> rfl
  · unfold reviewRequest
    split <;> rfl
  · unfold autoAbsentSweep
    split
    · rfl
    · simp [sessionTimes, foldl_sweep_sessions]
  · simp only [expireSweep, sessionTimes, List.map_map]
    exact List.map_congr_left (fun x _ => by
      simp only [Function.comp_apply]
      split <;> rfl)

/-- Claim C10: class marking never requires the student to belong to the
session's class.  For every student — with no hypothesis relating
`student.classId` to the session — if the session is found, the supplied
token matches, the session is live, and no duplicate event blocks the
mark, the mark succeeds and the event is recorded under the session's
classId.  The witness instantiates it with `stuW.classId = 99 ≠ 10 =
sessW.classId`. -/
theorem class_mark_any_student (student : Student) (sess : Session)
    (s : Store) (token : String) (dev : Option String)
    (loc : Option Location) (now : Nat)
    (hfind : s.sessions.find? (fun x => x.id = sess.id) = some sess)
    (htok : sess.token = token)
    (hact : sess.isActive = true)
    (hexp : ¬ sess.expiresAt < now)
    (hdup : s.attendances.find? (fun a =>
      a.studentId = student.id ∧ a.classId = sess.classId ∧
      a.date = dayStart now ∧ a.period = some sess.period) = none) :
    ∃ att s2,
      markRoute student.id sess.id token loc dev now s =
        Except.ok (att, s2) ∧
      att.classId = sess.classId ∧ att.studentId = student.id ∧
      att.type = AttType.CLASS ∧ att.status = AttStatus.PRESENT := by
  unfold markRoute markAttendance
  simp only [hfind, htok, hact, hexp, hdup, Option.isSome_none,
    Bool.false_eq_true, ne_eq, not_true_eq_false, if_false,
    Bool.true_eq_false, false_or, or_false, if_neg hexp]
  exact ⟨_, _, rfl, rfl, rfl, rfl, rfl⟩

/-- Witness for `class_mark_any_student`: a concrete store where the
student's own class (99) differs from the session's class (10) and the
mark still succeeds, recorded under class 10. -/
theorem class_mark_any_student_witness :
    (storeW.sessions.find? (fun x => x.id = sessW.id) = some sessW ∧
     sessW.token = "tokW" ∧ sessW.isActive = true ∧
     ¬ sessW.expiresAt < tMon + 60000 ∧
     storeW.attendances.find? (fun a =>
       a.studentId = stuW.id ∧ a.classId = sessW.classId ∧
       a.date = dayStart (tMon + 60000) ∧
       a.period = some sessW.period) = none ∧
     stuW.classId ≠ sessW.classId) ∧
    (∃ att s2,
      markRoute stuW.id sessW.id "tokW" none none (tMon + 60000) storeW =
        Except.ok (att, s2) ∧
      att.classId = sessW.classId ∧ att.studentId = stuW.id ∧
      att.type = AttType.CLASS ∧ att.status = AttStatus.PRESENT) :=
  ⟨by decide, class_mark_any_student stuW sessW storeW "tokW" none none
    (tMon + 60000) (by decide) (by decide) (by decide) (by decide)
    (by decide)⟩

/-- Claim C3, amended: the route first rejects a missing session or a
token unequal to `session.token` with the single combined error
"Invalid session or token" (so the token is compared before liveness and
a missing session is not distinguished from a token mismatch); the
service then rejects an inactive or past-expiry session with
"Invalid or expired session"; then an existing event matching
(studentId, session.classId, date = today's midnight, session.period)
yields "Attendance already marked"; only when all checks pass is a
PRESENT CLASS event inserted, dated `now`, with mode = session.mode and
markedBy = session.teacherId. -/
theorem mark_validation_order (userId sessionId : Nat) (token : String)
    (loc : Option Location) (dev : Option String) (now : Nat) (s : Store)
    (sess : Session) :
    (s.sessions.find? (fun x => x.id = sessionId) = none →
      markRoute userId sessionId token loc dev now s =
        Except.error "Invalid session or token") ∧
    (s.sessions.find? (fun x => x.id = sessionId) = some sess →
      sess.token ≠ token →
      markRoute userId sessionId token loc dev now s =
        Except.error "Invalid session or token") ∧
    (s.sessions.find? (fun x => x.id = sessionId) = some sess →
      sess.token = token →
      (sess.isActive = false ∨ sess.expiresAt < now) →
      markRoute userId sessionId token loc dev now s =
        Except.error "Invalid or expired session") ∧
    (s.sessions.find? (fun x => x.id = sessionId) = some sess →
      sess.token = token → sess.isActive = true →
      ¬ sess.expiresAt < now →
      (s.attendances.find? (fun a =>
        a.studentId = userId ∧ a.classId = sess.classId ∧
        a.date = dayStart now ∧
        a.period = some sess.period)).isSome = true →
      markRoute userId sessionId token loc dev now s =
        Except.error "Attendance already marked") ∧
    (s.sessions.find? (fun x => x.id = sessionId) = some sess →
      sess.token = token → sess.isActive = true →
      ¬ sess.expiresAt < now →
      s.attendances.find? (fun a =>
        a.studentId = userId ∧ a.classId = sess.classId ∧
        a.date = dayStart now ∧ a.period = some sess.period) = none →
      ∃ att s2,
        markRoute userId sessionId token loc dev now s =
          Except.ok (att, s2) ∧
        att.type = AttType.CLASS ∧ att.status = AttStatus.PRESENT ∧
        att.classId = sess.classId ∧ att.period = some sess.period ∧
        att.mode = some (sessionModeToAttMode sess.mode) ∧
        att.markedBy = some sess.teacherId ∧ att.date = now) := by
  refine ⟨?_, ?_, ?_, ?_, ?_⟩
  · intro hf
    unfold markRoute
    simp only [hf]
  · intro hf ht
    unfold markRoute
    simp only [hf]
    rw [if_pos ht]
  · intro hf ht hdead
    unfold markRoute markAttendance
    simp only [hf]
    rw [if_neg (fun hne => hne ht), if_pos hdead]
  · intro hf ht hact hexp hdup
    unfold markRoute markAttendance
    simp only [hf, hact, Bool.true_eq_false, false_or]
    rw [if_neg (fun hne => hne ht), if_neg hexp, if_pos hdup]
  · intro hf ht hact hexp hdup
    unfold markRoute markAttendance
    simp only [hf, hact, hdup, Option.isSome_none, Bool.true_eq_false,
      false_or, Bool.false_eq_true]
    rw [if_neg (fun hne => hne ht), if_neg hexp]
    simp only [if_false]
    exact ⟨_, _, rfl, rfl, rfl, rfl, rfl, rfl, rfl, rfl⟩

/-- Witness for `mark_validation_order`: the success case at a concrete
store, discharging every hypothesis. -/
theorem mark_validation_order_witness :
    (storeW.sessions.find? (fun x => x.id = 0) = some sessW ∧
     sessW.token = "tokW" ∧ sessW.isActive = true ∧
     ¬ sessW.expiresAt < tMon + 120000 ∧
     storeW.attendances.find? (fun a =>
       a.studentId = 6 ∧ a.classId = sessW.classId ∧
       a.date = dayStart (tMon + 120000) ∧
       a.period = some sessW.period) = none) ∧
    (∃ att s2,
      markRoute 6 0 "tokW" none none (tMon + 120000) storeW =
        Except.ok (att, s2) ∧
      att.type = AttType.CLASS ∧ att.status = AttStatus.PRESENT ∧
      att.classId = sessW.classId ∧ att.period = some sessW.period ∧
      att.mode = some (sessionModeToAttMode sessW.mode) ∧
      att.markedBy = some sessW.teacherId ∧ att.date = tMon + 120000) :=
  ⟨by decide, (mark_validation_order 6 0 "tokW" none none (tMon + 120000)
    storeW sessW).2.2.2.2 (by decide) (by decide) (by decide) (by decide)
    (by decide)⟩

/-- Claim C1, amended: duplicate suppression holds exactly on the guarded
paths — class marking rejects its insert when an event matching
(studentId, session.classId, date = today's midnight, session.period)
already exists; campus marking returns the found event and inserts
nothing when an event matching (studentId, today's midnight, CAMPUS)
exists; the absence sweep skips such students — while manual approval
inserts unconditionally (and no storage-level uniqueness exists), so two
distinct persisted events can share a (studentId, date, type, period)
key tuple. -/
theorem duplicate_guards (sessionId studentId : Nat) (dev : Option String)
    (loc : Option Location) (geo : Location → Bool) (stu : Student)
    (loc2 : Location) (st : Student) (req : Request) (tid now : Nat)
    (s : Store) (sess : Session) (e e2 e3 : Attendance) :
    (s.sessions.find? (fun x => x.id = sessionId) = some sess →
      sess.isActive = true → ¬ sess.expiresAt < now →
      s.attendances.find? (fun a =>
        a.studentId = studentId ∧ a.classId = sess.classId ∧
        a.date = dayStart now ∧ a.period = some sess.period) = some e →
      markAttendance sessionId studentId dev loc now s =
        Except.error "Attendance already marked") ∧
    (s.attendances.find? (fun a =>
        a.studentId = stu.id ∧ a.date = dayStart now ∧
        a.type = AttType.CAMPUS) = some e2 →
      markCampusAttendance geo stu loc2 dev now s = Except.ok (e2, s)) ∧
    (s.attendances.find? (fun a =>
        a.studentId = st.id ∧ a.date = dayStart now ∧
        a.type = AttType.CAMPUS) = some e3 →
      sweepStudent now s st = s) ∧
    (req.type = RequestType.MANUAL_ATTENDANCE →
      (reviewRequest req ReviewStatus.APPROVED tid now s).attendances.length
        = s.attendances.length + 1) := by
  refine ⟨?_, ?_, ?_, ?_⟩
  · intro hf hact hexp hdup
    unfold markAttendance
    simp only [hf, hact, Bool.true_eq_false, false_or]
    have hsome : (s.attendances.find? (fun a =>
        a.studentId = studentId ∧ a.classId = sess.classId ∧
        a.date = dayStart now ∧
        a.period = some sess.period)).isSome = true := by
      rw [hdup]; rfl
    rw [if_neg hexp, if_pos hsome]
  · intro hfound
    unfold markCampusAttendance
    simp only [hfound]
  · intro hfound
    unfold sweepStudent
    simp only [hfound]
  · intro hreq
    unfold reviewRequest
    rw [if_pos ⟨rfl, hreq⟩]
    simp [Store.insertAttendance]

/-- Witness for `duplicate_guards`: all four conjuncts discharged at a
concrete store holding one blocking CLASS event, one blocking CAMPUS
event, the live session, and a manual-attendance request. -/
theorem duplicate_guards_witness :
    (storeG.sessions.find? (fun x => x.id = 0) = some sessW ∧
     sessW.isActive = true ∧ ¬ sessW.expiresAt < tMon + 60000 ∧
     storeG.attendances.find? (fun a =>
       a.studentId = 5 ∧ a.classId = sessW.classId ∧
       a.date = dayStart (tMon + 60000) ∧
       a.period = some sessW.period) = some dupClassEvent ∧
     storeG.attendances.find? (fun a =>
       a.studentId = stuB.id ∧ a.date = dayStart (tMon + 60000) ∧
       a.type = AttType.CAMPUS) = some dupCampusEvent ∧
     reqC1.type = RequestType.MANUAL_ATTENDANCE) ∧
    markAttendance 0 5 none none (tMon + 60000) storeG =
      Except.error "Attendance already marked" ∧
    markCampusAttendance geoAll stuB locA none (tMon + 60000) storeG =
      Except.ok (dupCampusEvent, storeG) ∧
    sweepStudent (tMon + 60000) storeG stuB = storeG ∧
    (reviewRequest reqC1 ReviewStatus.APPROVED 9 (tMon + 60000)
      storeG).attendances.length = storeG.attendances.length + 1 :=
  ⟨by decide,
   (duplicate_guards 0 5 none none geoAll stuB locA stuB reqC1 9
     (tMon + 60000) storeG sessW dupClassEvent dupCampusEvent
     dupCampusEvent).1 (by decide) (by decide) (by decide) (by decide),
   (duplicate_guards 0 5 none none geoAll stuB locA stuB reqC1 9
     (tMon + 60000) storeG sessW dupClassEvent dupCampusEvent
     dupCampusEvent).2.1 (by decide),
   (duplicate_guards 0 5 none none geoAll stuB locA stuB reqC1 9
     (tMon + 60000) storeG sessW dupClassEvent dupCampusEvent
     dupCampusEvent).2.2.1 (by decide),
   (duplicate_guards 0 5 none none geoAll stuB locA stuB reqC1 9
     (tMon + 60000) storeG sessW dupClassEvent dupCampusEvent
     dupCampusEvent).2.2.2 (by decide)⟩

/-- Claim C2, amended: active-session uniqueness is attempted only by an
application-level check-then-act in the route: creation is rejected
precisely when some stored session matches (classId, date = today's
midnight, period, isActive = true); otherwise the insert proceeds and the
created session is appended active with `date = now`, the full
timestamp — so the guard cannot see sessions created earlier the same day
(their `date` is not midnight) and at-most-one-active is not enforced,
sequentially or concurrently. -/
theorem session_check_then_act (rules : List HolidayRule)
    (classId teacherId period : Nat) (mode : SessionMode)
    (token codeGen : String) (now : Nat) (s : Store) (e : Session) :
    ((isHoliday rules now).isHoliday = false →
      s.sessions.find? (fun x =>
        x.classId = classId ∧ x.date = dayStart now ∧ x.period = period ∧
        x.isActive = true) = some e →
      startSession rules classId teacherId period mode token codeGen now s
        = Except.error "Session already active for this period") ∧
    ((isHoliday rules now).isHoliday = false →
      s.sessions.find? (fun x =>
        x.classId = classId ∧ x.date = dayStart now ∧ x.period = period ∧
        x.isActive = true) = none →
      ∃ sess s2,
        startSession rules classId teacherId period mode token codeGen now
          s = Except.ok (sess, s2) ∧
        sess.isActive = true ∧ sess.date = now ∧ sess.classId = classId ∧
        sess.period = period ∧ s2.sessions = s.sessions ++ [sess]) := by
  constructor
  · intro hh hf
    unfold startSession
    simp only [hh, Bool.false_eq_true, if_false, hf]
  · intro hh hf
    unfold startSession
    simp only [hh, Bool.false_eq_true, if_false, hf]
    exact ⟨_, _, rfl, rfl, rfl, rfl, rfl, rfl⟩

/-- Witness for `session_check_then_act`: the guard fires on a store whose
active session is dated Monday midnight, and creation succeeds on the
empty store. -/
theorem session_check_then_act_witness :
    ((isHoliday [] tMon).isHoliday = false ∧
     storeA.sessions.find? (fun x =>
       x.classId = 1 ∧ x.date = dayStart tMon ∧ x.period = 3 ∧
       x.isActive = true) = some sessActive ∧
     (List.find? (fun x =>
       x.classId = 1 ∧ x.date = dayStart tMon ∧ x.period = 3 ∧
       x.isActive = true) ([] : List Session)) = none) ∧
    startSession [] 1 2 3 SessionMode.BLE "tokE" "" tMon storeA =
      Except.error "Session already active for this period" ∧
    (∃ sess s2,
      startSession [] 1 2 3 SessionMode.BLE "tokE" "" tMon ({} : Store) =
        Except.ok (sess, s2) ∧
      sess.isActive = true ∧ sess.date = tMon ∧ sess.classId = 1 ∧
      sess.period = 3 ∧
      s2.sessions = ({} : Store).sessions ++ [sess]) :=
  ⟨by decide,
   (session_check_then_act [] 1 2 3 SessionMode.BLE "tokE" "" tMon storeA
     sessActive).1 (by decide) (by decide),
   (session_check_then_act [] 1 2 3 SessionMode.BLE "tokE" "" tMon
     ({} : Store) sessActive).2 (by decide) (by decide)⟩

/-- Claim C7, amended: resolution order with first-declared-rule-wins
instead of SPECIAL-precedence.  A Sunday is always a holiday "Sunday";
otherwise the FIRST declared rule whose inclusive range contains the day
applies: SPECIAL gives a holiday named after the rule, SATURDAY_WORKING
on a Saturday gives a working day with mappedDay carried through; a
Saturday matched by no rule is a holiday "Saturday"; any other date
(including a non-Saturday matched only by a SATURDAY_WORKING rule) is
not a holiday. -/
theorem holiday_resolution (rules : List HolidayRule) (d : Nat)
    (h : HolidayRule) :
    (dayOfWeek d = 0 →
      isHoliday rules d = { isHoliday := true, reason := some "Sunday" }) ∧
    (dayOfWeek d ≠ 0 → findHolidayRule rules (dayStart d) = some h →
      h.type = HolidayType.SPECIAL →
      isHoliday rules d = { isHoliday := true, reason := some h.name }) ∧
    (dayOfWeek d = 6 → findHolidayRule rules (dayStart d) = some h →
      h.type = HolidayType.SATURDAY_WORKING →
      isHoliday rules d = { isHoliday := false
                            isWorkingDay := true
                            mappedDay := h.mappedDay
                            reason := some "Working Saturday" }) ∧
    (dayOfWeek d = 6 → findHolidayRule rules (dayStart d) = none →
      isHoliday rules d =
        { isHoliday := true, reason := some "Saturday" }) ∧
    (dayOfWeek d ≠ 0 → dayOfWeek d ≠ 6 →
      (findHolidayRule rules (dayStart d) = none ∨
       (findHolidayRule rules (dayStart d) = some h ∧
        h.type = HolidayType.SATURDAY_WORKING)) →
      isHoliday rules d = { isHoliday := false }) := by
  refine ⟨?_, ?_, ?_, ?_, ?_⟩
  · intro h0
    simp [isHoliday, h0]
  · intro h0 hf hsp
    simp [isHoliday, h0, hf, hsp]
  · intro h6 hf hsw
    simp [isHoliday, h6, hf, hsw]
  · intro h6 hf
    simp [isHoliday, h6, hf]
  · intro h0 h6 hcase
    cases hcase with
    | inl hf => simp [isHoliday, h0, h6, hf]
    | inr hc => simp [isHoliday, h0, h6, hc.1, hc.2]

/-- Witness for `holiday_resolution`: a SPECIAL rule covering Saturday
1970-01-03 resolves to a holiday named after the rule. -/
theorem holiday_resolution_witness :
    (dayOfWeek tSat ≠ 0 ∧
     findHolidayRule [ruleSpecial] (dayStart tSat) = some ruleSpecial ∧
     ruleSpecial.type = HolidayType.SPECIAL) ∧
    isHoliday [ruleSpecial] tSat =
      { isHoliday := true, reason := some "Festival" } :=
  ⟨by decide, (holiday_resolution [ruleSpecial] tSat ruleSpecial).2.1
    (by decide) (by decide) rfl⟩

/-- Field accounting for folding `bumpStat` over a record list: the name,
roll number and percentage are untouched, totalClasses grows by the list
length, present by the PRESENT count, absent by the rest. -/
theorem applyAll_fields (l : List Attendance) (st : StudentStat) :
    (applyAll st l).name = st.name ∧
    (applyAll st l).rollNumber = st.rollNumber ∧
    (applyAll st l).percentage = st.percentage ∧
    (applyAll st l).totalClasses = st.totalClasses + l.length ∧
    (applyAll st l).present = st.present +
      (l.filter (fun a => a.status = AttStatus.PRESENT)).length ∧
    (applyAll st l).absent = st.absent + (l.length -
      (l.filter (fun a => a.status = AttStatus.PRESENT)).length) := by
  induction l generalizing st with
  | nil => simp [applyAll]
  | cons r t ih =>
    have hle : (t.filter (fun a =>
        a.status = AttStatus.PRESENT)).length ≤ t.length :=
      List.length_filter_le _ _
    have hstep : applyAll st (r :: t) = applyAll (bumpStat st r) t := rfl
    rw [hstep]
    by_cases hr : r.status = AttStatus.PRESENT
    · have hb : bumpStat st r = { st with
          totalClasses := st.totalClasses + 1
          present := st.present + 1 } := by
        simp [bumpStat, hr]
      have hc : List.filter (fun a =>
          decide (a.status = AttStatus.PRESENT)) (r :: t) =
          r :: List.filter (fun a =>
            decide (a.status = AttStatus.PRESENT)) t := by
        simp [List.filter_cons, hr]
      rw [hb, hc]
      obtain ⟨h1, h2, h3, h4, h5, h6⟩ := ih { st with
          totalClasses := st.totalClasses + 1
          present := st.present + 1 }
      refine ⟨by rw [h1], by rw [h2], by rw [h3], ?_, ?_, ?_⟩
      · rw [h4, List.length_cons]; dsimp only; omega
      · rw [h5, List.length_cons]; dsimp only; omega
      · rw [h6, List.length_cons, List.length_cons]; dsimp only; omega
    · have hb : bumpStat st r = { st with
          totalClasses := st.totalClasses + 1
          absent := st.absent + 1 } := by
        simp [bumpStat, hr]
      have hc : List.filter (fun a =>
          decide (a.status = AttStatus.PRESENT)) (r :: t) =
          List.filter (fun a =>
            decide (a.status = AttStatus.PRESENT)) t := by
        simp [List.filter_cons, hr]
      rw [hb, hc]
      obtain ⟨h1, h2, h3, h4, h5, h6⟩ := ih { st with
          totalClasses := st.totalClasses + 1
          absent := st.absent + 1 }
      refine ⟨by rw [h1], by rw [h2], by rw [h3], ?_, ?_, ?_⟩
      · rw [h4, List.length_cons]; dsimp only; omega
      · rw [h5]
      · rw [h6, List.length_cons]; dsimp only; omega

/-- The stats fold distributes into one independent count per entry: each
key accumulates exactly the records carrying its own studentId. -/
theorem foldl_applyRecord (l : List Attendance)
    (init : List (Nat × StudentStat)) :
    l.foldl applyRecord init = init.map (fun p =>
      (p.1, applyAll p.2 (l.filter (fun a => a.studentId = p.1)))) := by
  induction l generalizing init with
  | nil =>
    have hid : (fun p : Nat × StudentStat =>
        (p.1, applyAll p.2 (List.filter (fun a =>
          a.studentId = p.1) []))) = id := by
      funext p
      simp [applyAll]
    rw [List.foldl_nil, hid, List.map_id]
  | cons r t ih =>
    rw [List.foldl_cons, ih]
    unfold applyRecord
    rw [List.map_map]
    refine List.map_congr_left (fun p _ => ?_)
    simp only [Function.comp_apply]
    by_cases hpr : p.1 = r.studentId
    · have hsym : (decide (r.studentId = p.1)) = true := by simp [hpr]
      rw [if_pos hpr, List.filter_cons, if_pos hsym]
      rfl
    · have hsym : ¬ ((decide (r.studentId = p.1)) = true) := by
        simp only [decide_eq_true_eq]
        exact fun hc => hpr hc.symm
      rw [if_neg hpr, List.filter_cons, if_neg hsym]

/-- Two report rows agreeing on every field are equal. -/
theorem StudentStat.ext_fields {a b : StudentStat} (h1 : a.name = b.name)
    (h2 : a.rollNumber = b.rollNumber)
    (h3 : a.totalClasses = b.totalClasses) (h4 : a.present = b.present)
    (h5 : a.absent = b.absent) (h6 : a.percentage = b.percentage) :
    a = b := by
  cases a
  cases b
  simp only at h1 h2 h3 h4 h5 h6
  simp [h1, h2, h3, h4, h5, h6]

/-- Claim C8, amended: the report aggregates ALL attendance events of the
class in the date range — CAMPUS and CLASS alike, since the fetch has no
`type` filter — grouped per student: totalClasses counts the student's
fetched events, present counts those with status PRESENT, absent is
their difference, and percentage is round(present / totalClasses × 100)
with 0 when totalClasses = 0.  The result is a pure function of the
event set and the student list. -/
theorem report_closed_form (classId startDate endDate : Nat)
    (students : List Student) (s : Store) :
    generateAttendanceReport classId startDate endDate students s =
      students.map (fun st =>
        let recs := (s.attendances.filter (fun a =>
          a.classId = classId ∧ startDate ≤ a.date ∧
          a.date ≤ endDate)).filter (fun a => a.studentId = st.id)
        let pres := (recs.filter (fun a =>
          a.status = AttStatus.PRESENT)).length
        { name := st.name
          rollNumber := st.rollNumber
          totalClasses := recs.length
          present := pres
          absent := recs.length - pres
          percentage := if 0 < recs.length then jsRound pres recs.length
            else 0 }) := by
  simp only [generateAttendanceReport]
  rw [foldl_applyRecord, List.map_map, List.map_map, List.map_map]
  refine List.map_congr_left (fun st _ => ?_)
  simp only [Function.comp_apply]
  obtain ⟨h1, h2, h3, h4, h5, h6⟩ := applyAll_fields
    (List.filter (fun a => decide (a.studentId = st.id))
      (List.filter (fun a => decide (a.classId = classId ∧
        startDate ≤ a.date ∧ a.date ≤ endDate)) s.attendances))
    { name := st.name, rollNumber := st.rollNumber }
  dsimp only at h3 h4 h5 h6
  simp only [Nat.zero_add] at h4 h5 h6
  unfold finalizeStat
  split
  case isTrue hpos =>
    rw [h4] at hpos
    apply StudentStat.ext_fields
    · dsimp only; rw [h1]
    · dsimp only; rw [h2]
    · dsimp only; rw [h4]
    · dsimp only; rw [h5]
    · dsimp only; rw [h6]
    · dsimp only; rw [h5, h4, if_pos hpos]
  case isFalse hneg =>
    rw [h4] at hneg
    apply StudentStat.ext_fields
    · rw [h1]
    · rw [h2]
    · rw [h4]
    · rw [h5]
    · rw [h6]
    · rw [h3, if_neg hneg]
